import Mathlib

/-!
Verification of the Wayfarer MAVLink router / MQTT bridge.

Shallow embedding of the Python sources:
  * `wayfarer/anne x/Nomad/backend/mav_router/router.py`      (header parser, `Router.route_once`)
  * `wayfarer/anne x/Nomad/backend/mav_router/mavlink_encoder.py`
  * `wayfarer/anne x/Nomad/backend/mav_router/mqtt_adapter.py` (`MissionManager`, command path,
    `_pending_loop`)
  * `wayfarer/anne x/Nomad/backend/mav_router/gcs_heartbeat.py`
  * `wayfarer/anne x/Nomad/backend/mav_router/mission_uploader.py`
  * `wayfarer/core/registry.py`  (`DeviceRegistry`)

Modelling conventions:
  * byte strings are `List Nat` (each entry is one byte value);
  * wall-clock times (`time.time()`) and float-valued fields are `Rat`;
  * the SHA-256 digest of a byte string is modelled by the byte string itself
    (the code uses digests only as dictionary keys over the frame bytes, so up
    to hash collisions the two keyings coincide);
  * Python dicts used as maps are total functions into `Option`;
  * side effects (`out_q.put`, UDP `sendto`, MQTT `publish`) are reified as an
    emitted event list, in program order.
-/

namespace Wayfarer

/-- A UDP peer address `(host, port)`. -/
abbrev Addr := String × Int

/-! ### MAVLink header parsing (`router.py`, `parse_sysid_compid`)

The Python function indexes into `pkt` after length guards.  To make the
"never raises / never indexes out of bounds" part of the safety claim
expressible, every index access is performed through `List.get?` inside the
`Option` monad: an out-of-bounds access would produce `none` for the whole
call, modelling a raised `IndexError`.  `some r` means the function returned
normally with result `r`. -/

/-- `parse_sysid_compid(pkt)` from `router.py`, with fallible indexing.
Result `some (sysid?, compid?)` is a normal return; `none` would be an
uncaught `IndexError`. -/
def parse_sysid_compid (pkt : List Nat) : Option (Option Nat × Option Nat) :=
  -- `if not pkt or len(pkt) < 6: return None, None`
  if pkt.length < 6 then some (none, none)
  else do
    let b0 ← pkt.get? 0
    -- MAVLink v1: 0xFE, sysid at [3], compid at [4]
    if b0 = 0xFE ∧ 6 ≤ pkt.length then do
      let s ← pkt.get? 3
      let c ← pkt.get? 4
      some (some s, some c)
    -- MAVLink v2: 0xFD, sysid at [5], compid at [6]
    else if b0 = 0xFD ∧ 7 ≤ pkt.length then do
      let s ← pkt.get? 5
      let c ← pkt.get? 6
      some (some s, some c)
    else
      some (none, none)

/-- Total wrapper used by the rest of the embedding (justified by
`parse_sysid_compid_total` below: the fallible parser never fails). -/
def parseTotal (pkt : List Nat) : Option Nat × Option Nat :=
  (parse_sysid_compid pkt).getD (none, none)

theorem parse_sysid_compid_isSome (pkt : List Nat) :
    (parse_sysid_compid pkt).isSome := by
  unfold parse_sysid_compid
  split
  · simp
  · rename_i h6
    have h6' : 6 ≤ pkt.length := Nat.le_of_not_lt h6
    rw [List.get?_eq_get (show 0 < pkt.length by omega)]
    simp only [Option.bind_eq_bind, Option.some_bind]
    split
    · rw [List.get?_eq_get (show 3 < pkt.length by omega),
          List.get?_eq_get (show 4 < pkt.length by omega)]
      simp
    · split
      · rename_i h h2
        obtain ⟨-, h7⟩ := h2
        rw [List.get?_eq_get (show 5 < pkt.length by omega),
            List.get?_eq_get (show 6 < pkt.length by omega)]
        simp
      · simp

theorem parse_total_eq (pkt : List Nat) :
    parse_sysid_compid pkt = some (parseTotal pkt) := by
  have h := parse_sysid_compid_isSome pkt
  unfold parseTotal
  cases hp : parse_sysid_compid pkt with
  | none => rw [hp] at h; simp at h
  | some r => simp

theorem parse_v1_value (pkt : List Nat) (h0 : pkt.get? 0 = some 0xFE)
    (h6 : 6 ≤ pkt.length) :
    parse_sysid_compid pkt = some (pkt.get? 3, pkt.get? 4) := by
  unfold parse_sysid_compid
  rw [if_neg (by omega), h0]
  simp only [Option.bind_eq_bind, Option.some_bind]
  rw [if_pos (And.intro trivial h6),
      List.get?_eq_get (show 3 < pkt.length by omega),
      List.get?_eq_get (show 4 < pkt.length by omega)]
  simp

theorem parse_v2_value (pkt : List Nat) (h0 : pkt.get? 0 = some 0xFD)
    (h7 : 7 ≤ pkt.length) :
    parse_sysid_compid pkt = some (pkt.get? 5, pkt.get? 6) := by
  unfold parse_sysid_compid
  rw [if_neg (by omega), h0]
  simp only [Option.bind_eq_bind, Option.some_bind]
  rw [if_neg (by rintro ⟨h, -⟩; omega), if_pos (And.intro trivial h7),
      List.get?_eq_get (show 5 < pkt.length by omega),
      List.get?_eq_get (show 6 < pkt.length by omega)]
  simp

theorem parse_other_value (pkt : List Nat)
    (hother :
      pkt.length < 6 ∨
        ∀ b, pkt.get? 0 = some b → b ≠ 0xFE ∧ (b = 0xFD → pkt.length < 7)) :
    parse_sysid_compid pkt = some (none, none) := by
  unfold parse_sysid_compid
  rcases hother with h6 | hb
  · rw [if_pos h6]
  · by_cases h6 : pkt.length < 6
    · rw [if_pos h6]
    · rw [if_neg h6]
      have hlt : 0 < pkt.length := by omega
      rw [List.get?_eq_get hlt]
      simp only [Option.bind_eq_bind, Option.some_bind]
      obtain ⟨hne, hfd⟩ := hb _ (List.get?_eq_get hlt)
      rw [if_neg (by rintro ⟨h, -⟩; exact hne h),
          if_neg (by rintro ⟨h, h7⟩; exact absurd h7 (by have := hfd h; omega))]

/-- C10: `parse_sysid_compid` is total on arbitrary byte strings (no index is
ever out of bounds, modelled by the result never being `none`); a packet
starting with `0xFE` of length ≥ 6 yields `(byte 3, byte 4)`; a packet
starting with `0xFD` of length ≥ 7 yields `(byte 5, byte 6)`; every other
input — too short, a 6-byte `0xFD` packet, or a non-MAVLink magic byte —
yields `(None, None)`. -/
theorem parse_sysid_compid_total_and_correct (pkt : List Nat) :
    (parse_sysid_compid pkt).isSome
    ∧ (pkt.get? 0 = some 0xFE → 6 ≤ pkt.length →
        parse_sysid_compid pkt = some (pkt.get? 3, pkt.get? 4))
    ∧ (pkt.get? 0 = some 0xFD → 7 ≤ pkt.length →
        parse_sysid_compid pkt = some (pkt.get? 5, pkt.get? 6))
    ∧ ((pkt.length < 6 ∨
          ∀ b, pkt.get? 0 = some b → b ≠ 0xFE ∧ (b = 0xFD → pkt.length < 7)) →
        parse_sysid_compid pkt = some (none, none)) :=
  ⟨parse_sysid_compid_isSome pkt,
   fun h0 h6 => parse_v1_value pkt h0 h6,
   fun h0 h7 => parse_v2_value pkt h0 h7,
   fun h => parse_other_value pkt h⟩

/-- Witness for C10 at concrete packets: a v1 header, a v2 header, and a
6-byte v2-magic packet (the `0xFD` short-packet edge case). -/
theorem parse_sysid_compid_total_and_correct_witness :
    parse_sysid_compid [0xFE, 9, 0, 7, 8, 1] = some (some 7, some 8)
    ∧ parse_sysid_compid [0xFD, 9, 0, 0, 0, 42, 190, 1] = some (some 42, some 190)
    ∧ parse_sysid_compid [0xFD, 9, 0, 0, 0, 42] = some (none, none) := by
  refine ⟨?_, ?_, ?_⟩
  · have h := (parse_sysid_compid_total_and_correct [0xFE, 9, 0, 7, 8, 1]).2.1
      (by decide) (by decide)
    simpa using h
  · have h := (parse_sysid_compid_total_and_correct
      [0xFD, 9, 0, 0, 0, 42, 190, 1]).2.2.1 (by decide) (by decide)
    simpa using h
  · have h := (parse_sysid_compid_total_and_correct [0xFD, 9, 0, 0, 0, 42]).2.2.2
      (Or.inr (by decide))
    simpa using h

/-! ### Router state and `Router.route_once` (`router.py`)

`Router.__init__` builds `observed_sysids` with exactly the port names as
keys and `last_addr` empty; `route_once` consumes one inbound tuple
`(port_name, src_addr, data)`.  The two dedupe dictionaries
(`_recent_seen`, keyed by the SHA-256 digest of the frame, and
`_recent_forwarded`, keyed by `port:digest:target`) are modelled as maps
keyed by the frame bytes themselves.  The UDP forwarding socket is assumed
to have been created successfully (the `__init__` `try` normally succeeds). -/

/-- A forwarding destination from a `forwards` config rule: either
`{"type": "udp", "host": h, "port": p}` or
`{"type": "to_port", "port_name": n, "host"?: h, "port"?: p}` (the optional
host/port pair is the pre-computed `dest_addr`). -/
inductive FwdTarget where
  | udp (host : String) (port : Int)
  | toPort (portName : String) (destAddr : Option Addr)
deriving DecidableEq

/-- One entry of the router's `forwards` list: `from` (`none` models the
`"any"` wildcard/default), the list of targets, and the per-rule
`dedupe_window` (default `1.0`). -/
structure FwdRule where
  frm : Option String
  tos : List FwdTarget
  dedupeWindow : Rat := 1
deriving DecidableEq

/-- An observable output of `route_once`: a `put` into a named port's
`out_q`, or a `sendto` on the shared forwarding UDP socket. -/
inductive Emit where
  | toPortQ (port : String) (dest : Option Addr) (data : List Nat)
  | udpSend (host : String) (port : Int) (data : List Nat)
deriving DecidableEq

/-- State of a `Router` (the mutable fields of `router.py`'s `Router`). -/
structure RouterState where
  /-- the keys of the `ports` dict, in insertion order -/
  ports : List String
  /-- `observed_sysids`: port name → set of sysids seen on it -/
  observed : String → Finset Nat
  /-- `last_addr`: port name → last seen peer address -/
  lastAddr : String → Option Addr
  /-- the `forwards` rule list -/
  forwards : List FwdRule
  /-- `_dedupe_window` (constructor default `0.2`) -/
  dedupeWindow : Rat
  /-- `_recent_seen`: frame digest (modelled by the bytes) → last-seen time -/
  recentSeen : List Nat → Option Rat
  /-- `_recent_forwarded`: `(port, digest, target)` → last-forward time -/
  recentForwarded : String × List Nat × FwdTarget → Option Rat

/-- Step 1 of `route_once`: if the parsed sysid is defined, add it to
`observed_sysids[port_name]` and record `last_addr[port_name] = src_addr`. -/
def recordObserved (s : RouterState) (portName : String) (srcAddr : Addr)
    (data : List Nat) : RouterState :=
  match (parseTotal data).1 with
  | some sysid =>
      { s with
        observed := Function.update s.observed portName
          (insert sysid (s.observed portName))
        lastAddr := Function.update s.lastAddr portName (some srcAddr) }
  | none => s

/-- `any(250 <= s <= 255 for s in seen)`. -/
def hasGCS (seen : Finset Nat) : Bool :=
  decide (∃ g ∈ seen, 250 ≤ g ∧ g ≤ 255)

/-- The `dest_ports` computation of `route_once` (the sysid routing policy). -/
def destPorts (ports : List String) (observed : String → Finset Nat)
    (origin : String) (sysid : Option Nat) : List String :=
  match sysid with
  | none => ports.filter (fun p => p != origin)
  | some k =>
      if k < 250 then
        ports.filter (fun p => p != origin && hasGCS (observed p))
      else
        ports.filter (fun p => p != origin)

/-- Process one forwarding target `t` of a rule with window `window`:
respect the `(port, digest, target)` dedupe window, emit the appropriate
send, and mark the key as forwarded. -/
def applyTarget (origin : String) (data : List Nat) (now : Rat) (window : Rat)
    (ports : List String)
    (acc : (String × List Nat × FwdTarget → Option Rat) × List Emit)
    (t : FwdTarget) :
    (String × List Nat × FwdTarget → Option Rat) × List Emit :=
  let key := (origin, data, t)
  let suppressed :=
    match acc.1 key with
    | some last => decide (now - last < window)
    | none => false
  if suppressed then acc
  else
    let sends :=
      match t with
      | .udp host port => [Emit.udpSend host port data]
      | .toPort name dest =>
          if name ∈ ports then [Emit.toPortQ name dest data] else []
    (Function.update acc.1 key (some now), acc.2 ++ sends)

/-- Process one forwarding rule: skip it unless `from` is `"any"` or equals
the origin port, else apply every target with the rule's dedupe window. -/
def applyRule (origin : String) (data : List Nat) (now : Rat)
    (ports : List String)
    (acc : (String × List Nat × FwdTarget → Option Rat) × List Emit)
    (fr : FwdRule) :
    (String × List Nat × FwdTarget → Option Rat) × List Emit :=
  match fr.frm with
  | some f => if f = origin then fr.tos.foldl (applyTarget origin data now fr.dedupeWindow ports) acc else acc
  | none => fr.tos.foldl (applyTarget origin data now fr.dedupeWindow ports) acc

/-- The per-rule forwarding loop of `route_once` (runs after the global
dedupe check passed), returning the updated `_recent_forwarded` map and the
emitted sends. -/
def processForwards (s : RouterState) (origin : String) (data : List Nat)
    (now : Rat) : (String × List Nat × FwdTarget → Option Rat) × List Emit :=
  s.forwards.foldl (applyRule origin data now s.ports) (s.recentForwarded, [])

/-- The emissions of the sysid routing policy: one `out_q.put((last_addr, data))`
per destination port. -/
def policyEmits (s : RouterState) (origin : String) (data : List Nat) : List Emit :=
  (destPorts s.ports s.observed origin (parseTotal data).1).map
    (fun dp => Emit.toPortQ dp (s.lastAddr dp) data)

/-- Whether the global dedupe hits: the forwards list and the frame are both
non-empty, and the frame's digest was last seen within `_dedupe_window`. -/
def dedupeDrops (s : RouterState) (data : List Nat) (now : Rat) : Bool :=
  s.forwards ≠ [] && data ≠ [] &&
    match s.recentSeen data with
    | some last => now - last < s.dedupeWindow
    | none => false

/-- `Router.route_once` on one inbound tuple `(portName, srcAddr, data)` read
from `router_in_q` at time `now`, returning the new router state and the
emitted sends in program order (forward-rule sends first, then the routing
policy's `out_q` puts). -/
def routeOnce (s : RouterState) (portName : String) (srcAddr : Addr)
    (data : List Nat) (now : Rat) : RouterState × List Emit :=
  let s1 := recordObserved s portName srcAddr data
  if s1.forwards ≠ [] ∧ data ≠ [] then
    let hit :=
      match s1.recentSeen data with
      | some last => decide (now - last < s1.dedupeWindow)
      | none => false
    -- in both branches the digest's last-seen time is set to `now`
    let s2 := { s1 with recentSeen := Function.update s1.recentSeen data (some now) }
    if hit then
      -- global dedupe: drop the packet, no forwarding, no routing
      (s2, [])
    else
      let fwd := processForwards s2 portName data now
      let s3 := { s2 with recentForwarded := fwd.1 }
      (s3, fwd.2 ++ policyEmits s3 portName data)
  else
    (s1, policyEmits s1 portName data)

@[simp] theorem recordObserved_ports (s : RouterState) (p : String) (a : Addr)
    (d : List Nat) : (recordObserved s p a d).ports = s.ports := by
  unfold recordObserved; cases (parseTotal d).1 <;> rfl

@[simp] theorem recordObserved_forwards (s : RouterState) (p : String) (a : Addr)
    (d : List Nat) : (recordObserved s p a d).forwards = s.forwards := by
  unfold recordObserved; cases (parseTotal d).1 <;> rfl

@[simp] theorem recordObserved_dedupeWindow (s : RouterState) (p : String)
    (a : Addr) (d : List Nat) :
    (recordObserved s p a d).dedupeWindow = s.dedupeWindow := by
  unfold recordObserved; cases (parseTotal d).1 <;> rfl

@[simp] theorem recordObserved_recentSeen (s : RouterState) (p : String)
    (a : Addr) (d : List Nat) :
    (recordObserved s p a d).recentSeen = s.recentSeen := by
  unfold recordObserved; cases (parseTotal d).1 <;> rfl

@[simp] theorem recordObserved_recentForwarded (s : RouterState) (p : String)
    (a : Addr) (d : List Nat) :
    (recordObserved s p a d).recentForwarded = s.recentForwarded := by
  unfold recordObserved; cases (parseTotal d).1 <;> rfl

/-- After `route_once` processes a frame through the forwarding block (i.e.
the forwards list and the frame are non-empty), the frame digest's last-seen
time is `now` — in both the dedupe-hit and the dedupe-miss branch. -/
theorem routeOnce_recentSeen_now (s : RouterState) (p : String) (a : Addr)
    (d : List Nat) (now : Rat) (hf : s.forwards ≠ []) (hd : d ≠ []) :
    (routeOnce s p a d now).1.recentSeen d = some now := by
  unfold routeOnce
  rw [if_pos ⟨by simpa using hf, hd⟩,
      apply_ite (fun r : RouterState × List Emit => r.1.recentSeen d)]
  simp

/-- `route_once` never changes `forwards`, `dedupeWindow` or `ports`. -/
theorem routeOnce_preserves (s : RouterState) (p : String) (a : Addr)
    (d : List Nat) (now : Rat) :
    (routeOnce s p a d now).1.forwards = s.forwards
    ∧ (routeOnce s p a d now).1.dedupeWindow = s.dedupeWindow
    ∧ (routeOnce s p a d now).1.ports = s.ports := by
  unfold routeOnce
  by_cases h : (recordObserved s p a d).forwards ≠ [] ∧ d ≠ []
  · rw [if_pos h]
    refine ⟨?_, ?_, ?_⟩
    · rw [apply_ite (fun r : RouterState × List Emit => r.1.forwards)]; simp
    · rw [apply_ite (fun r : RouterState × List Emit => r.1.dedupeWindow)]; simp
    · rw [apply_ite (fun r : RouterState × List Emit => r.1.ports)]; simp
  · rw [if_neg h]; simp

/-- If the global dedupe hits (`_recent_seen` holds a time within the window
and the forwarding block is active), `route_once` drops the frame: it emits
nothing and only refreshes the digest's last-seen time. -/
theorem routeOnce_dedupe_hit (s : RouterState) (p : String) (a : Addr)
    (d : List Nat) (now t0 : Rat) (hf : s.forwards ≠ []) (hd : d ≠ [])
    (hseen : s.recentSeen d = some t0) (hw : now - t0 < s.dedupeWindow) :
    (routeOnce s p a d now).2 = []
    ∧ (routeOnce s p a d now).1.recentSeen d = some now := by
  refine ⟨?_, routeOnce_recentSeen_now s p a d now hf hd⟩
  unfold routeOnce
  rw [if_pos ⟨by simpa using hf, hd⟩]
  have hm : (match (recordObserved s p a d).recentSeen d with
      | some last => decide (now - last < (recordObserved s p a d).dedupeWindow)
      | none => false) = true := by
    rw [recordObserved_recentSeen, hseen, recordObserved_dedupeWindow]
    exact decide_eq_true hw
  rw [if_pos hm]

/-- The forward-rule emissions of a `route_once` call (empty when the
forwarding block does not run). -/
def fwdEmits (s : RouterState) (p : String) (a : Addr) (d : List Nat)
    (now : Rat) : List Emit :=
  if (recordObserved s p a d).forwards ≠ [] ∧ d ≠ [] then
    (processForwards (recordObserved s p a d) p d now).2
  else []

theorem destPorts_vehicle_mem (ports : List String)
    (observed : String → Finset Nat) (origin : String) (k : Nat)
    (hk : k < 250) (p : String) :
    p ∈ destPorts ports observed origin (some k) ↔
      p ∈ ports ∧ p ≠ origin ∧ ∃ g ∈ observed p, 250 ≤ g ∧ g ≤ 255 := by
  simp only [destPorts]
  rw [if_pos hk]
  simp [List.mem_filter, hasGCS, and_assoc]

theorem destPorts_broadcast (ports : List String)
    (observed : String → Finset Nat) (origin : String) (sid : Option Nat)
    (hsid : sid = none ∨ ∃ k, sid = some k ∧ 250 ≤ k) :
    destPorts ports observed origin sid = ports.filter (fun p => p != origin) := by
  rcases hsid with h | ⟨k, hk, h250⟩
  · rw [h]
    rfl
  · rw [hk]
    simp only [destPorts]
    exact if_neg (by omega)

/-- C1: for every inbound tuple that `route_once` processes (i.e. that the
global dedupe does not drop), the emissions decompose into the forward-rule
sends followed by the routing policy's `out_q` puts, and the policy
destinations are: for a vehicle frame (`src_sysid < 250`) exactly the
transports other than the origin whose observed-sysid set contains some
sysid in `250..255`; for an undefined or GCS (`≥ 250`) sysid, every
transport except the origin. -/
theorem route_once_routing_policy (s : RouterState) (portName : String)
    (srcAddr : Addr) (data : List Nat) (now : Rat)
    (hnd : dedupeDrops s data now = false) :
    ((routeOnce s portName srcAddr data now).2
      = fwdEmits s portName srcAddr data now
        ++ (destPorts s.ports (recordObserved s portName srcAddr data).observed
              portName (parseTotal data).1).map
            (fun dp =>
              Emit.toPortQ dp
                ((recordObserved s portName srcAddr data).lastAddr dp) data))
    ∧ (∀ k, (parseTotal data).1 = some k → k < 250 →
        ∀ p, p ∈ destPorts s.ports
              (recordObserved s portName srcAddr data).observed portName
              (parseTotal data).1 ↔
            p ∈ s.ports ∧ p ≠ portName ∧
              ∃ g ∈ (recordObserved s portName srcAddr data).observed p,
                250 ≤ g ∧ g ≤ 255)
    ∧ (((parseTotal data).1 = none ∨ ∃ k, (parseTotal data).1 = some k ∧ 250 ≤ k) →
        destPorts s.ports (recordObserved s portName srcAddr data).observed
            portName (parseTotal data).1
          = s.ports.filter (fun p => p != portName)) := by
  refine ⟨?_, ?_, ?_⟩
  · unfold routeOnce fwdEmits
    by_cases h : (recordObserved s portName srcAddr data).forwards ≠ [] ∧ data ≠ []
    · have hf : s.forwards ≠ [] := by
        have := h.1; rwa [recordObserved_forwards] at this
      rw [if_pos h, if_pos h]
      have hmiss : (match (recordObserved s portName srcAddr data).recentSeen data with
          | some last =>
              decide (now - last < (recordObserved s portName srcAddr data).dedupeWindow)
          | none => false) = false := by
        simp only [recordObserved_recentSeen, recordObserved_dedupeWindow]
        cases hm : (match s.recentSeen data with
            | some last => decide (now - last < s.dedupeWindow)
            | none => false) with
        | false => rfl
        | true =>
          exfalso
          unfold dedupeDrops at hnd
          rw [hm] at hnd
          simp [hf, h.2] at hnd
      rw [if_neg (by rw [hmiss]; exact Bool.false_ne_true)]
      simp only [policyEmits, processForwards]
      simp
    · rw [if_neg h, if_neg h]
      simp only [policyEmits]
      simp
  · intro k hk hlt p
    rw [hk]
    exact destPorts_vehicle_mem _ _ _ _ hlt _
  · intro h
    exact destPorts_broadcast _ _ _ _ h

/-- Router state for the S5 scenario: `udp_14550` has observed vehicle
sysid 3, `udp_14560` has observed GCS sysid 251; no forwarding rules. -/
def s5state : RouterState where
  ports := ["udp_14550", "udp_14560"]
  observed := fun p => if p = "udp_14550" then {3} else if p = "udp_14560" then {251} else ∅
  lastAddr := fun p => if p = "udp_14560" then some ("10.0.0.2", 14560) else none
  forwards := []
  dedupeWindow := 1/5
  recentSeen := fun _ => none
  recentForwarded := fun _ => none

/-- A MAVLink v1 frame from vehicle sysid 3 (compid 1). -/
def vehicleFrame : List Nat := [0xFE, 9, 0, 3, 1, 0]

/-- Witness for C1 at the S5 scenario: a frame from vehicle sysid 3 injected
on `udp_14550` is enqueued exactly onto the GCS-bearing `udp_14560`, not
back onto `udp_14550`. -/
theorem route_once_routing_policy_witness :
    dedupeDrops s5state vehicleFrame 0 = false
    ∧ (routeOnce s5state "udp_14550" ("10.0.0.1", 14550) vehicleFrame 0).2
        = [Emit.toPortQ "udp_14560" (some ("10.0.0.2", 14560)) vehicleFrame] := by
  have h := route_once_routing_policy s5state "udp_14550" ("10.0.0.1", 14550)
    vehicleFrame 0 (by decide)
  refine ⟨by decide, ?_⟩
  rw [h.1]
  decide

/-- A MAVLink v1 frame from GCS sysid 255 (compid 1). -/
def gcsFrame : List Nat := [0xFE, 9, 1, 255, 1, 0]

/-- Counterexample state for C2: two ports, **no** forwarding rules
(`forwards=None` in the constructor gives `[]`), default-style dedupe window
`0.2`. -/
def c2state : RouterState where
  ports := ["udp_14550", "udp_14560"]
  observed := fun _ => ∅
  lastAddr := fun _ => none
  forwards := []
  dedupeWindow := 1/5
  recentSeen := fun _ => none
  recentForwarded := fun _ => none

/-- Counterexample to C2 as stated: with no declarative forward rules
configured, the global-dedupe block of `route_once` (guarded by
`if self.forwards and data:`) never runs, so the *same* frame bytes received
twice within `dedupe_window_s` (here `0.1 < 0.2`) are **both** forwarded by
the routing policy — not "at most one". -/
theorem route_once_dedupe_counterexample :
    ((routeOnce c2state "udp_14550" ("10.0.0.1", 14550) gcsFrame 0).2
      = [Emit.toPortQ "udp_14560" none gcsFrame])
    ∧ ((routeOnce (routeOnce c2state "udp_14550" ("10.0.0.1", 14550) gcsFrame 0).1
          "udp_14550" ("10.0.0.1", 14550) gcsFrame (1/10)).2
      = [Emit.toPortQ "udp_14560" none gcsFrame])
    ∧ ((1 : Rat)/10 - 0 < c2state.dedupeWindow) := by
  refine ⟨by decide, by decide, by norm_num [c2state]⟩

/-- C2 amended: *when at least one declarative forward rule is configured
and the frame is non-empty*, a second receipt of identical frame bytes
within `dedupe_window_s` of the first is dropped by the global dedupe:
`route_once` computes the frame digest, emits nothing (no forwarding, no
routing), and still updates the digest's last-seen time to the time of the
second receipt. -/
theorem route_once_dedupe_window (s : RouterState) (p1 p2 : String)
    (a1 a2 : Addr) (data : List Nat) (t1 t2 : Rat)
    (hf : s.forwards ≠ []) (hd : data ≠ [])
    (hw : t2 - t1 < s.dedupeWindow) :
    (routeOnce (routeOnce s p1 a1 data t1).1 p2 a2 data t2).2 = []
    ∧ (routeOnce (routeOnce s p1 a1 data t1).1 p2 a2 data t2).1.recentSeen data
        = some t2 := by
  have hpres := routeOnce_preserves s p1 a1 data t1
  have h1 : (routeOnce s p1 a1 data t1).1.recentSeen data = some t1 :=
    routeOnce_recentSeen_now s p1 a1 data t1 hf hd
  exact routeOnce_dedupe_hit (routeOnce s p1 a1 data t1).1 p2 a2 data t2 t1
    (by rw [hpres.1]; exact hf) hd h1
    (by rw [hpres.2.1]; exact hw)

/-- Router state with a forward rule, for the C2-amended witness. -/
def c2fwdState : RouterState where
  ports := ["udp_14550", "udp_14560"]
  observed := fun _ => ∅
  lastAddr := fun _ => none
  forwards := [⟨none, [FwdTarget.toPort "udp_14560" none], 1⟩]
  dedupeWindow := 1/5
  recentSeen := fun _ => none
  recentForwarded := fun _ => none

/-- Witness for the amended C2: with a forward rule configured, the second
identical frame 0.1s after the first is dropped with no emissions, and its
last-seen time is refreshed. -/
theorem route_once_dedupe_window_witness :
    (routeOnce (routeOnce c2fwdState "udp_14550" ("10.0.0.1", 14550) gcsFrame 0).1
        "udp_14550" ("10.0.0.1", 14550) gcsFrame (1/10)).2 = []
    ∧ (routeOnce (routeOnce c2fwdState "udp_14550" ("10.0.0.1", 14550) gcsFrame 0).1
        "udp_14550" ("10.0.0.1", 14550) gcsFrame (1/10)).1.recentSeen gcsFrame
      = some (1/10) :=
  route_once_dedupe_window c2fwdState "udp_14550" "udp_14550"
    ("10.0.0.1", 14550) ("10.0.0.1", 14550) gcsFrame 0 (1/10)
    (by decide) (by decide) (by norm_num [c2fwdState])

/-- Counterexample state for C3: a single port `A` and a declarative forward
rule whose `to_port` target names `A` itself. -/
def c3state : RouterState where
  ports := ["A"]
  observed := fun _ => ∅
  lastAddr := fun _ => none
  forwards := [⟨none, [FwdTarget.toPort "A" none], 1⟩]
  dedupeWindow := 1/5
  recentSeen := fun _ => none
  recentForwarded := fun _ => none

/-- Counterexample to C3 as stated: a frame arriving on port `A` is enqueued
by the `to_port` forward rule back onto `A`'s own out queue — the router has
no origin check in the declarative-forward path, so destination = origin. -/
theorem route_once_forward_to_origin_counterexample :
    (routeOnce c3state "A" ("10.0.0.1", 5760) [1] 0).2
      = [Emit.toPortQ "A" none [1]] := by
  decide

/-- C3 amended: the sysid-based routing policy never targets the origin
transport (any `out_q` put produced by `policyEmits` goes to a port other
than the one the frame arrived on); declarative `to_port` forward rules,
however, can enqueue a frame back onto its origin when a rule names the
origin port (see the counterexample). -/
theorem policy_emits_never_origin (s : RouterState) (origin : String)
    (data : List Nat) (p : String) (dest : Option Addr) (d2 : List Nat)
    (h : Emit.toPortQ p dest d2 ∈ policyEmits s origin data) :
    p ≠ origin := by
  unfold policyEmits at h
  rw [List.mem_map] at h
  obtain ⟨dp, hdp, heq⟩ := h
  cases heq
  revert hdp
  unfold destPorts
  cases (parseTotal data).1 with
  | none =>
    intro hdp
    rw [List.mem_filter] at hdp
    simpa using hdp.2
  | some k =>
    intro hdp
    dsimp only at hdp
    by_cases hk : k < 250
    · rw [if_pos hk, List.mem_filter] at hdp
      have := hdp.2
      simp only [Bool.and_eq_true, bne_iff_ne, ne_eq] at this
      exact this.1
    · rw [if_neg hk, List.mem_filter] at hdp
      simpa using hdp.2

/-- Witness for the amended C3 at the S5 scenario: the policy destination
`udp_14560` differs from the origin `udp_14550`. -/
theorem policy_emits_never_origin_witness : "udp_14560" ≠ "udp_14550" :=
  policy_emits_never_origin s5state "udp_14550" vehicleFrame
    "udp_14560" (some ("10.0.0.2", 14560)) vehicleFrame (by decide)

/-! ### Device registry (`wayfarer/core/registry.py`) -/

/-- A registry entry (the per-device dict built by `upsert_mav`). -/
structure Device where
  schema : String
  sysid : Nat
  compid : Option Nat
  transports : Finset String
  firstSeen : Rat
  lastSeen : Rat

/-- `DeviceRegistry`: `_store` maps `device_id` strings to entries. -/
structure DeviceRegistry where
  store : String → Option Device

/-- `device_id_for_mav(sysid)`: the deterministic id `mav_sys<N>`. -/
def device_id_for_mav (sysid : Nat) : String := "mav_sys" ++ toString sysid

/-- `DeviceRegistry.upsert_mav(sysid, origin_transport, compid)` at time
`now`: create-or-update the entry, prefer the latest non-`None` compid, add
the origin transport, and return the canonical device id. -/
def upsert_mav (reg : DeviceRegistry) (sysid : Nat) (originTransport : String)
    (compid : Option Nat) (now : Rat) : String × DeviceRegistry :=
  let did := device_id_for_mav sysid
  let dev := (reg.store did).getD
    { schema := "mavlink", sysid := sysid, compid := compid, transports := ∅,
      firstSeen := now, lastSeen := now }
  let dev' := { dev with
    lastSeen := now
    compid := match compid with | some c => some c | none => dev.compid
    transports := insert originTransport dev.transports }
  (did, ⟨Function.update reg.store did (some dev')⟩)

/-- `DeviceRegistry.transports_for(device_id)`. -/
def transports_for (reg : DeviceRegistry) (deviceId : String) : Finset String :=
  match reg.store deviceId with
  | some dev => dev.transports
  | none => ∅

theorem routeOnce_observed (s : RouterState) (p : String) (a : Addr)
    (d : List Nat) (now : Rat) :
    (routeOnce s p a d now).1.observed = (recordObserved s p a d).observed := by
  unfold routeOnce
  by_cases h : (recordObserved s p a d).forwards ≠ [] ∧ d ≠ []
  · rw [if_pos h, apply_ite (fun r : RouterState × List Emit => r.1.observed)]
    simp
  · rw [if_neg h]

theorem recordObserved_mem (s : RouterState) (p : String) (a : Addr)
    (d : List Nat) (k : Nat) (hk : (parseTotal d).1 = some k) :
    k ∈ (recordObserved s p a d).observed p := by
  unfold recordObserved
  rw [hk]
  simp

/-- C5: `upsert_mav` always returns the deterministic id `mav_sys<N>`
derived from the sysid alone, the registry afterwards contains that id, and
`transports_for` of that id contains the origin transport; and on the router
side, after `route_once` processes a frame whose parsed sysid is defined,
the origin transport's observed-sysid set contains that sysid. -/
theorem upsert_mav_registers_transport (reg : DeviceRegistry) (sysid : Nat)
    (T : String) (compid : Option Nat) (now : Rat) :
    (upsert_mav reg sysid T compid now).1 = device_id_for_mav sysid
    ∧ ((upsert_mav reg sysid T compid now).2.store (device_id_for_mav sysid)).isSome
    ∧ T ∈ transports_for (upsert_mav reg sysid T compid now).2
        (device_id_for_mav sysid)
    ∧ ∀ (s : RouterState) (a : Addr) (d : List Nat) (t : Rat) (k : Nat),
        (parseTotal d).1 = some k →
        k ∈ (routeOnce s T a d t).1.observed T := by
  refine ⟨rfl, ?_, ?_, ?_⟩
  · unfold upsert_mav
    simp
  · unfold upsert_mav transports_for
    simp
  · intro s a d t k hk
    rw [routeOnce_observed]
    exact recordObserved_mem s T a d k hk

/-- The empty device registry. -/
def regEmpty : DeviceRegistry := ⟨fun _ => none⟩

/-- Witness for C5: upserting sysid 3 seen on `udp_14550` yields id
`mav_sys3` whose transport set contains `udp_14550`, and routing the
corresponding frame records sysid 3 as observed on `udp_14550`. -/
theorem upsert_mav_registers_transport_witness :
    (upsert_mav regEmpty 3 "udp_14550" (some 1) 0).1 = device_id_for_mav 3
    ∧ "udp_14550" ∈ transports_for (upsert_mav regEmpty 3 "udp_14550" (some 1) 0).2
        (device_id_for_mav 3)
    ∧ 3 ∈ (routeOnce s5state "udp_14550" ("10.0.0.1", 14550)
            vehicleFrame 0).1.observed "udp_14550" := by
  have h := upsert_mav_registers_transport regEmpty 3 "udp_14550" (some 1) 0
  exact ⟨h.1, h.2.2.1,
    h.2.2.2 s5state ("10.0.0.1", 14550) vehicleFrame 0 3 (by decide)⟩

/-! ### MAVLink encoder (`mavlink_encoder.py`)

`_make_mavlink_writer(src_sys, src_comp)` sets `srcSystem`/`srcComponent` on
the pymavlink writer, so every frame packed through it carries those values
in its header.  A packed frame is modelled as its header source identity
plus the message payload. -/

/-- Message payloads produced by the encoder module. -/
inductive MavMsg where
  | heartbeat (mavType autopilot baseMode customMode : Nat) (systemStatus : Nat)
  | commandLong (targetSys targetComp command confirmation : Nat) (params : List Rat)
  | missionCount (targetSys targetComp count : Nat)
  | missionItemInt (targetSys targetComp seq frame command current autocontinue : Nat)
      (params : List Rat) (x y : Int) (z : Rat)
  | missionRequestList (targetSys targetComp : Nat)
  | missionRequestInt (targetSys targetComp seq : Nat)
deriving DecidableEq

/-- A packed MAVLink frame: the header's source identity and the message. -/
structure MavFrame where
  srcSys : Nat
  srcComp : Nat
  msg : MavMsg
deriving DecidableEq

/-- `list(params)[:n] + [0.0] * max(0, n - len(params))`. -/
def padParams (n : Nat) (params : List Rat) : List Rat :=
  params.take n ++ List.replicate (n - params.length) 0

/-- `encode_heartbeat(src_sys, src_comp, ...)`; defaults `MAV_TYPE_GCS = 6`,
`MAV_AUTOPILOT_INVALID = 8`, `base_mode=192`, `custom_mode=0`,
`system_status=4`. -/
def encode_heartbeat (srcSys srcComp : Nat) (mavType : Nat := 6)
    (autopilot : Nat := 8) (baseMode : Nat := 192) (customMode : Nat := 0)
    (systemStatus : Nat := 4) : MavFrame :=
  ⟨srcSys, srcComp, .heartbeat mavType autopilot baseMode customMode systemStatus⟩

/-- `encode_command_long(...)`: note the source-identity defaults are
`src_sys=255, src_comp=1` (the docstring claims "defaults to GCS: 250/1"). -/
def encode_command_long (targetSys targetComp command : Nat)
    (params : List Rat := []) (confirmation : Nat := 0)
    (srcSys : Nat := 255) (srcComp : Nat := 1) : MavFrame :=
  ⟨srcSys, srcComp,
   .commandLong targetSys targetComp command confirmation (padParams 7 params)⟩

/-- `encode_mission_count(...)`. -/
def encode_mission_count (targetSys targetComp count : Nat)
    (srcSys : Nat := 255) (srcComp : Nat := 1) : MavFrame :=
  ⟨srcSys, srcComp, .missionCount targetSys targetComp count⟩

/-- `encode_mission_item_int(...)`. -/
def encode_mission_item_int (targetSys targetComp seq frame command : Nat)
    (current : Nat := 0) (autocontinue : Nat := 1) (params : List Rat := [])
    (x : Int := 0) (y : Int := 0) (z : Rat := 0)
    (srcSys : Nat := 255) (srcComp : Nat := 1) : MavFrame :=
  ⟨srcSys, srcComp,
   .missionItemInt targetSys targetComp seq frame command current autocontinue
     (padParams 4 params) x y z⟩

/-- `encode_mission_request_list(...)`. -/
def encode_mission_request_list (targetSys targetComp : Nat)
    (srcSys : Nat := 255) (srcComp : Nat := 1) : MavFrame :=
  ⟨srcSys, srcComp, .missionRequestList targetSys targetComp⟩

/-- `encode_mission_request_int(...)`. -/
def encode_mission_request_int (targetSys targetComp seq : Nat)
    (srcSys : Nat := 255) (srcComp : Nat := 1) : MavFrame :=
  ⟨srcSys, srcComp, .missionRequestInt targetSys targetComp seq⟩

/-- The configuration fields the GCS identity is read from (`cfg.get`). -/
structure Cfg where
  gcsSysid : Option Nat
  gcsCompid : Option Nat
deriving DecidableEq

/-- `gcs_heartbeat.start_gcs_heartbeat`: the heartbeat frame is encoded with
`cfg.get('gcs_sysid', 250)` / `cfg.get('gcs_compid', 1)`. -/
def gcsHeartbeatFrame (cfg : Cfg) : MavFrame :=
  encode_heartbeat (cfg.gcsSysid.getD 250) (cfg.gcsCompid.getD 1)

/-- `MQTTAdapter.on_message` COMMAND_LONG path: encodes with
`cfg.get("gcs_sysid", 255)` / `cfg.get("gcs_compid", 1)`. -/
def onMessageEncodeCommandLong (cfg : Cfg) (tgtSys tgtComp cmd : Nat)
    (params : List Rat) : MavFrame :=
  encode_command_long tgtSys tgtComp cmd params 0
    (cfg.gcsSysid.getD 255) (cfg.gcsCompid.getD 1)

/-- `MQTTAdapter._pending_loop` COMMAND_LONG re-encode: called **without**
`src_sys`/`src_comp`, so the encoder parameter defaults `255/1` are used
regardless of the configured GCS identity. -/
def pendingEncodeCommandLong (tgtSys tgtComp cmd : Nat)
    (params : List Rat) : MavFrame :=
  encode_command_long tgtSys tgtComp cmd params

/-- `MQTTAdapter._pending_loop` MISSION_ITEM_INT re-encode: likewise called
without `src_sys`/`src_comp`. -/
def pendingEncodeMissionItemInt (tgtSys tgtComp seq frame cmd : Nat)
    (params : List Rat) (x y : Int) (z : Rat) : MavFrame :=
  encode_mission_item_int tgtSys tgtComp seq frame cmd 0 1 params x y z

/-- A configuration with GCS identity sysid 250, compid 1. -/
def cfg250 : Cfg := ⟨some 250, some 1⟩

/-- C4 (failing-input evaluation): with the GCS configured as `250/1`, the
synthesized heartbeat and the directly-encoded COMMAND_LONG carry `250/1`,
but a pending COMMAND_LONG flushed by `_pending_loop` carries the encoder
parameter defaults `255/1` — not the configured GCS identity. -/
theorem pending_loop_drops_configured_gcs_identity :
    cfg250.gcsSysid = some 250 ∧ cfg250.gcsCompid = some 1
    ∧ (gcsHeartbeatFrame cfg250).srcSys = 250
    ∧ (gcsHeartbeatFrame cfg250).srcComp = 1
    ∧ (onMessageEncodeCommandLong cfg250 1 1 400 [1]).srcSys = 250
    ∧ (pendingEncodeCommandLong 1 1 400 [1]).srcSys = 255
    ∧ (pendingEncodeCommandLong 1 1 400 [1]).srcSys ≠ 250
    ∧ (pendingEncodeMissionItemInt 1 1 0 0 16 [] 0 0 0).srcSys = 255 := by
  refine ⟨rfl, rfl, rfl, rfl, rfl, rfl, by decide, rfl⟩

/-! ### MQTT adapter command path and pending loop (`mqtt_adapter.py`)

`on_message` on a `command/<sys>/<comp>/<action>` topic (after the
`load_waypoints` / `download_mission` special actions, which are not
modelled here) resolves a destination port from the router's observed
sysids; if none is known the command is queued in `pending_commands`.
`_pending_loop` wakes every 0.5 s and flushes queued commands once their
target sysid is observed on a port with a known `last_addr`. -/

/-- A decoded JSON command payload (`data` in `on_message`), restricted to
dict payloads.  `otherDict` stands for any dict that is neither a
COMMAND_LONG nor a MISSION_ITEM_INT description (the JSON fallback path). -/
inductive CmdData where
  | commandLong (targetSys targetComp : Option Nat) (command : Nat)
      (params : List Rat)
  | missionItemInt (targetSys targetComp : Option Nat) (seq frame command : Nat)
      (x y : Int) (z : Rat) (params : List Rat)
  | otherDict (tag : String)
deriving DecidableEq

/-- Bytes put into a transport out queue: an encoded MAVLink frame, or the
JSON fallback `{"topic": ..., "payload": ...}`. -/
inductive OutBytes where
  | frame (f : MavFrame)
  | jsonPayload (topic : String) (d : CmdData)
deriving DecidableEq

/-- A mission item received during a download (the `item_data` dict built in
`on_message` from the decoded MISSION_ITEM_INT fields). -/
structure DLItem where
  seq : Nat
  frame : Nat
  command : Nat
  x : Int
  y : Int
  z : Rat
  params : List Rat
deriving DecidableEq

/-- The JSON object published by `MissionManager._complete_download` on
`Nomad/missions/downloaded/<sysid>`: exactly the keys `sysid`, `compid`,
`mission`, `count`, `download_duration`.  The mission list is published as
stored — item by item, `frame` fields and all — and the payload carries no
hash field; `_complete_download` performs no canonicalization pass and
computes no hash. -/
structure DownloadedPayload where
  sysid : Nat
  compid : Nat
  mission : List (Option DLItem)
  count : Nat
  downloadDuration : Rat
deriving DecidableEq

/-- Observable adapter effects: an `out_q.put((dest_addr, bytes))`, an MQTT
ack publish on `command/<sys>/<comp>/ack` with a status, a downloaded-mission
publish on `Nomad/missions/downloaded/<sysid>`, or an upload-status publish
on `Nomad/missions/uploaded/<sysid>/status`. -/
inductive Event where
  | inject (port : String) (dest : Addr) (out : OutBytes)
  | ackPub (sysid compid : Nat) (status : String)
  | publishDownloaded (sysid : Nat) (payload : DownloadedPayload)
  | publishUploadStatus (sysid compid : Nat) (status : String) (itemCount : Nat)
deriving DecidableEq

/-- `for p, seen in router.observed_sysids.items(): if sysid in seen` — the
first port (in port order) that has observed the sysid. -/
def destPortFor (router : RouterState) (sysid : Nat) : Option String :=
  router.ports.find? (fun p => decide (sysid ∈ router.observed p))

/-- `MissionManager._send_to_drone` routing: the first port that observed
the sysid, together with its `last_addr`; `none` models `return False`. -/
def sendToDrone (router : RouterState) (sysid : Nat) : Option (String × Addr) :=
  match destPortFor router sysid with
  | some p =>
      match router.lastAddr p with
      | some addr => some (p, addr)
      | none => none
  | none => none

/-- `MQTTAdapter.on_message` on `command/<targetSys>/<targetComp>/<action>`
with a dict payload `d` (generic command path): returns the new
`pending_commands` map and the emitted events in program order. -/
def onMessageCommand (cfg : Cfg) (router : RouterState)
    (pending : Nat → List (String × CmdData)) (topic : String)
    (targetSys targetComp : Nat) (d : CmdData) :
    (Nat → List (String × CmdData)) × List Event :=
  match destPortFor router targetSys with
  | none =>
      -- no known port: queue for later delivery; no send and no ack
      (Function.update pending targetSys (pending targetSys ++ [(topic, d)]), [])
  | some destPort =>
      match router.lastAddr destPort with
      | none => (pending, [])   -- "no last_addr for port ...; cannot send"
      | some destAddr =>
          match d with
          | .commandLong ts tc cmd params =>
              let tgtSys := ts.getD targetSys
              let tgtComp := tc.getD targetComp
              let f := onMessageEncodeCommandLong cfg tgtSys tgtComp cmd params
              (pending,
               [.ackPub tgtSys tgtComp "encoded",
                .inject destPort destAddr (.frame f)])
          | .missionItemInt ts tc seq frame cmd x y z params =>
              let tgtSys := ts.getD targetSys
              let tgtComp := tc.getD targetComp
              let f := encode_mission_item_int tgtSys tgtComp seq frame cmd 0 1
                params x y z (cfg.gcsSysid.getD 255) (cfg.gcsCompid.getD 1)
              (pending,
               [.ackPub tgtSys tgtComp "encoded",
                .inject destPort destAddr (.frame f)])
          | .otherDict _ =>
              (pending, [.inject destPort destAddr (.jsonPayload topic d)])

/-- `_pending_loop` re-encoding of a queued command (note: no
`src_sys`/`src_comp` are passed; `target_comp` defaults to 1 here, unlike
`on_message`). -/
def pendingEncode (targetSys : Nat) (topic : String) (d : CmdData) : OutBytes :=
  match d with
  | .commandLong ts tc cmd params =>
      .frame (pendingEncodeCommandLong (ts.getD targetSys) (tc.getD 1) cmd params)
  | .missionItemInt ts tc seq frame cmd x y z params =>
      .frame (pendingEncodeMissionItemInt (ts.getD targetSys) (tc.getD 1)
        seq frame cmd params x y z)
  | .otherDict _ => .jsonPayload topic d

/-- The compid used in the pending-loop ack topic:
`data.get('target_comp', 0)`. -/
def pendingAckComp (d : CmdData) : Nat :=
  match d with
  | .commandLong _ tc _ _ => tc.getD 0
  | .missionItemInt _ tc _ _ _ _ _ _ _ => tc.getD 0
  | .otherDict _ => 0

/-- Flushing one queued command in `_pending_loop`: put the re-encoded bytes
into the port's out queue, then publish the `delivered` ack. -/
def flushPendingItem (targetSys : Nat) (port : String) (addr : Addr)
    (it : String × CmdData) : List Event :=
  [.inject port addr (pendingEncode targetSys it.1 it.2),
   .ackPub targetSys (pendingAckComp it.2) "delivered"]

/-- One `_pending_loop` evaluation for one target sysid: if no port has
observed the sysid, or the port has no `last_addr`, the entry is left
queued; otherwise every queued command is flushed (inject, then ack) and
the entry is deleted. -/
def pendingPassOne (router : RouterState)
    (pending : Nat → List (String × CmdData)) (targetSys : Nat) :
    (Nat → List (String × CmdData)) × List Event :=
  match destPortFor router targetSys with
  | none => (pending, [])
  | some p =>
      match router.lastAddr p with
      | none => (pending, [])
      | some addr =>
          (Function.update pending targetSys [],
           (pending targetSys).flatMap (flushPendingItem targetSys p addr))

/-- `time.sleep(0.5)` at the end of each `_pending_loop` iteration. -/
def pendingLoopIntervalS : Rat := 1/2

/-- C6: a command whose target sysid no transport has observed is not sent
but appended to `pending_commands[sysid]` with no ack; the pending loop
(waking every 0.5 s) flushes it once the sysid is observed on a port with a
known `last_addr`: the re-encoded command is put into that port's out queue
and only afterwards is the `delivered` ack published — per item the events
are exactly `[inject, ack delivered]` in that order. -/
theorem pending_command_queue_then_deliver (cfg : Cfg) (router : RouterState)
    (pending : Nat → List (String × CmdData)) (topic : String)
    (targetSys targetComp : Nat) (d : CmdData)
    (hno : destPortFor router targetSys = none)
    (router2 : RouterState) (pending2 : Nat → List (String × CmdData))
    (p : String) (addr : Addr)
    (hp : destPortFor router2 targetSys = some p)
    (ha : router2.lastAddr p = some addr) :
    (onMessageCommand cfg router pending topic targetSys targetComp d
      = (Function.update pending targetSys (pending targetSys ++ [(topic, d)]), []))
    ∧ (pendingPassOne router2 pending2 targetSys
      = (Function.update pending2 targetSys [],
         (pending2 targetSys).flatMap (flushPendingItem targetSys p addr)))
    ∧ (∀ sys port a it, flushPendingItem sys port a it
        = [Event.inject port a (pendingEncode sys it.1 it.2),
           Event.ackPub sys (pendingAckComp it.2) "delivered"])
    ∧ pendingLoopIntervalS = 1/2 := by
  refine ⟨?_, ?_, fun _ _ _ _ => rfl, rfl⟩
  · unfold onMessageCommand
    rw [hno]
  · unfold pendingPassOne
    rw [hp]
    dsimp only
    rw [ha]

/-- Router state for the C6 witness: sysid 7 observed on `udp_14550`, whose
peer address is known. -/
def c6router : RouterState where
  ports := ["udp_14550"]
  observed := fun p => if p = "udp_14550" then {7, 1} else ∅
  lastAddr := fun p => if p = "udp_14550" then some ("10.0.0.9", 14550) else none
  forwards := []
  dedupeWindow := 1/5
  recentSeen := fun _ => none
  recentForwarded := fun _ => none

/-- The queued C6 witness command. -/
def c6cmd : CmdData := CmdData.commandLong none none 400 [1]

/-- Witness for C6: with no port having observed sysid 7 (`c2state`), the
command is queued and nothing is emitted; once sysid 7 is observed on
`udp_14550` with a known address (`c6router`), the pending pass emits the
inject followed by the `delivered` ack and empties the queue. -/
theorem pending_command_queue_then_deliver_witness :
    ((onMessageCommand cfg250 c2state (fun _ => []) "command/7/1/details" 7 1 c6cmd).2
      = [])
    ∧ ((onMessageCommand cfg250 c2state (fun _ => []) "command/7/1/details" 7 1 c6cmd).1 7
      = [("command/7/1/details", c6cmd)])
    ∧ ((pendingPassOne c6router
          (fun s => if s = 7 then [("command/7/1/details", c6cmd)] else []) 7).2
      = [Event.inject "udp_14550" ("10.0.0.9", 14550)
           (pendingEncode 7 "command/7/1/details" c6cmd),
         Event.ackPub 7 0 "delivered"])
    ∧ ((pendingPassOne c6router
          (fun s => if s = 7 then [("command/7/1/details", c6cmd)] else []) 7).1 7
      = []) := by
  have h := pending_command_queue_then_deliver cfg250 c2state (fun _ => [])
    "command/7/1/details" 7 1 c6cmd (by decide) c6router
    (fun s => if s = 7 then [("command/7/1/details", c6cmd)] else [])
    "udp_14550" ("10.0.0.9", 14550) (by decide) (by decide)
  refine ⟨?_, ?_, ?_, ?_⟩
  · rw [h.1]
  · rw [h.1]
    simp
  · rw [h.2.1]
    rfl
  · rw [h.2.1]
    simp

/-! ### Mission manager (`mqtt_adapter.py`, class `MissionManager`)

Upload states are keyed by sysid with `state` one of `'sending_count'`,
`'sending_items'`, `'completed'`; download states use `'requesting_list'`,
`'downloading'`, `'completed'`.  No other state string is ever assigned in
`mqtt_adapter.py` — in particular there is no `'failed'` assignment and no
handler reads the clock to compare against a timeout. -/

/-- The state strings ever assigned to `upload_states[sysid]['state']`. -/
inductive UploadPhase where
  | sendingCount
  | sendingItems
  | completed
deriving DecidableEq

/-- The state strings ever assigned to `download_states[sysid]['state']`. -/
inductive DownloadPhase where
  | requestingList
  | downloading
  | completed
deriving DecidableEq

/-- One mission item of an upload (`mission[seq]` dict: `frame`, `command`,
`x`, `y`, `z`, optional `params`). -/
structure MissionItem where
  frame : Nat
  command : Nat
  x : Int
  y : Int
  z : Rat
  params : List Rat
deriving DecidableEq

/-- `upload_states[sysid]`. -/
structure UploadState where
  phase : UploadPhase
  mission : List MissionItem
  sent : Finset Int
  startTime : Rat
  targetComp : Nat
  expectedHash : Option String
deriving DecidableEq

/-- `download_states[sysid]` (the mission list is `[None] * count`, filled
hole by hole). -/
structure DownloadState where
  phase : DownloadPhase
  mission : List (Option DLItem)
  startTime : Rat
  targetComp : Nat
deriving DecidableEq

/-- The `MissionManager`'s mutable state. -/
structure MMState where
  uploads : Nat → Option UploadState
  downloads : Nat → Option DownloadState

/-- The empty mission-manager state. -/
def mmEmpty : MMState := ⟨fun _ => none, fun _ => none⟩

/-- `MissionManager.start_mission_upload(sysid, compid, mission,
expected_hash)` at time `now`: record the `sending_count` state, encode
`MISSION_COUNT` with the configured GCS identity, and on a successful send
transition to `sending_items`. -/
def start_mission_upload (cfg : Cfg) (router : RouterState) (mm : MMState)
    (sysid compid : Nat) (mission : List MissionItem)
    (expectedHash : Option String) (now : Rat) : MMState × List Event :=
  let st0 : UploadState :=
    ⟨.sendingCount, mission, ∅, now, compid, expectedHash⟩
  let f := encode_mission_count sysid compid mission.length
    (cfg.gcsSysid.getD 255) (cfg.gcsCompid.getD 1)
  match sendToDrone router sysid with
  | some (p, addr) =>
      ({ mm with uploads := (Function.update mm.uploads sysid
          (some { st0 with phase := .sendingItems })) },
       [.inject p addr (.frame f)])
  | none =>
      ({ mm with uploads := (Function.update mm.uploads sysid (some st0)) }, [])

/-- `MissionManager.handle_mission_request(sysid, compid, seq)`: during
`sending_items`, an in-range `seq` is answered with a `MISSION_ITEM_INT`
built from `mission[seq]` (encoded with the configured GCS identity); on a
successful send `seq` is recorded in `sent`. -/
def handle_mission_request (cfg : Cfg) (router : RouterState) (mm : MMState)
    (sysid compid : Nat) (seq : Int) : MMState × List Event :=
  match mm.uploads sysid with
  | none => (mm, [])
  | some st =>
      if st.phase ≠ .sendingItems then (mm, [])
      else if seq < 0 ∨ (st.mission.length : Int) ≤ seq then (mm, [])
      else
        let item := st.mission.getD seq.toNat ⟨0, 0, 0, 0, 0, []⟩
        let f := encode_mission_item_int sysid compid seq.toNat item.frame
          item.command 0 1 item.params item.x item.y item.z
          (cfg.gcsSysid.getD 255) (cfg.gcsCompid.getD 1)
        match sendToDrone router sysid with
        | some (p, addr) =>
            ({ mm with uploads := (Function.update mm.uploads sysid
                (some { st with sent := insert seq st.sent })) },
             [.inject p addr (.frame f)])
        | none => (mm, [])

/-- `MissionManager.handle_mission_ack(sysid, compid)` at time `now`: a
`sending_items` upload becomes `completed` and its status is published. -/
def handle_mission_ack (mm : MMState) (sysid compid : Nat) : MMState × List Event :=
  match mm.uploads sysid with
  | some st =>
      if st.phase = .sendingItems then
        ({ mm with uploads := (Function.update mm.uploads sysid
            (some { st with phase := .completed })) },
         [.publishUploadStatus sysid compid "completed" st.mission.length])
      else (mm, [])
  | none => (mm, [])

/-- `MissionManager.handle_mission_item(sysid, compid, seq, item_data)` at
time `now` during a download: fill `mission[seq]`; if all slots are filled,
`_complete_download` marks the state `completed` and publishes the raw
stored mission (with `duration = now - start_time`); otherwise request
`seq + 1` (only if it is in range — holes below `seq` are never
re-requested). -/
def handle_mission_item (cfg : Cfg) (router : RouterState) (mm : MMState)
    (sysid compid : Nat) (seq : Nat) (itemData : DLItem) (now : Rat) :
    MMState × List Event :=
  match mm.downloads sysid with
  | none => (mm, [])
  | some st =>
      if st.phase ≠ .downloading then (mm, [])
      else if seq < st.mission.length then
        let mission' := st.mission.set seq (some itemData)
        if mission'.all (fun it => it.isSome) then
          ({ mm with downloads := (Function.update mm.downloads sysid
              (some { st with phase := .completed, mission := mission' })) },
           [.publishDownloaded sysid
             ⟨sysid, compid, mission', mission'.length, now - st.startTime⟩])
        else
          let mmUpd := { mm with downloads := (Function.update mm.downloads sysid
              (some { st with mission := mission' })) }
          if seq + 1 < st.mission.length then
            let f := encode_mission_request_int sysid compid (seq + 1)
              (cfg.gcsSysid.getD 255) (cfg.gcsCompid.getD 1)
            match sendToDrone router sysid with
            | some (p, addr) => (mmUpd, [.inject p addr (.frame f)])
            | none => (mmUpd, [])
          else (mmUpd, [])
      else (mm, [])

/-- `MissionManager.handle_mission_count(sysid, compid, count)`: `count = 0`
completes immediately with an empty mission; otherwise allocate `count`
holes, enter `downloading`, and request seq 0. -/
def handle_mission_count (cfg : Cfg) (router : RouterState) (mm : MMState)
    (sysid compid : Nat) (count : Nat) (now : Rat) : MMState × List Event :=
  if count = 0 then
    ({ mm with downloads := (Function.update mm.downloads sysid
        (some ⟨.completed, [], now, compid⟩)) }, [])
  else
    let mm1 := { mm with downloads := (Function.update mm.downloads sysid
        (some ⟨.downloading, List.replicate count none, now, compid⟩)) }
    let f := encode_mission_request_int sysid compid 0
      (cfg.gcsSysid.getD 255) (cfg.gcsCompid.getD 1)
    match sendToDrone router sysid with
    | some (p, addr) => (mm1, [.inject p addr (.frame f)])
    | none => (mm1, [])

/-- C7: during a mission upload in `sending_items`, every inbound
MISSION_REQUEST[_INT] carrying an in-range `seq = k` — including one that
arrives out of order — is answered with a `MISSION_ITEM_INT` built from
`mission[k]` (the item for the requested seq, not the next sequential one)
carrying `seq = k`, and `k` is recorded in `sent`. -/
theorem handle_mission_request_serves_requested_seq (cfg : Cfg)
    (router : RouterState) (mm : MMState) (sysid compid : Nat) (seq : Int)
    (st : UploadState) (p : String) (addr : Addr)
    (hst : mm.uploads sysid = some st) (hph : st.phase = .sendingItems)
    (h0 : 0 ≤ seq) (hlt : seq < (st.mission.length : Int))
    (hsend : sendToDrone router sysid = some (p, addr)) :
    handle_mission_request cfg router mm sysid compid seq
      = ({ mm with uploads := (Function.update mm.uploads sysid
            (some { st with sent := insert seq st.sent })) },
         [Event.inject p addr (OutBytes.frame
           (encode_mission_item_int sysid compid seq.toNat
             (st.mission.getD seq.toNat ⟨0, 0, 0, 0, 0, []⟩).frame
             (st.mission.getD seq.toNat ⟨0, 0, 0, 0, 0, []⟩).command 0 1
             (st.mission.getD seq.toNat ⟨0, 0, 0, 0, 0, []⟩).params
             (st.mission.getD seq.toNat ⟨0, 0, 0, 0, 0, []⟩).x
             (st.mission.getD seq.toNat ⟨0, 0, 0, 0, 0, []⟩).y
             (st.mission.getD seq.toNat ⟨0, 0, 0, 0, 0, []⟩).z
             (cfg.gcsSysid.getD 255) (cfg.gcsCompid.getD 1)))]) := by
  unfold handle_mission_request
  rw [hst]
  dsimp only
  rw [if_neg (by rw [hph]; exact fun h => h rfl), if_neg (by omega), hsend]

/-- Upload state for the C7 witness: `sending_items` with a two-item
mission. -/
def upStateEx : UploadState :=
  ⟨.sendingItems,
   [⟨6, 16, 374125000, -1219980000, 55, []⟩,
    ⟨6, 16, 374130000, -1219982000, 60, []⟩],
   ∅, 0, 1, none⟩

/-- Mission-manager state for the C7 witness. -/
def mmUp : MMState := ⟨fun s => if s = 1 then some upStateEx else none, fun _ => none⟩

/-- Witness for C7: requesting `seq = 1` (not 0 first) is answered with the
item at index 1 with `seq = 1`, and 1 is recorded as sent. -/
theorem handle_mission_request_serves_requested_seq_witness :
    ((handle_mission_request cfg250 c6router mmUp 1 1 1).2
      = [Event.inject "udp_14550" ("10.0.0.9", 14550) (OutBytes.frame
          (encode_mission_item_int 1 1 1 6 16 0 1 [] 374130000 (-1219982000) 60
            250 1))])
    ∧ (((handle_mission_request cfg250 c6router mmUp 1 1 1).1.uploads 1).map
        (fun st => st.sent) = some {1}) := by
  have h := handle_mission_request_serves_requested_seq cfg250 c6router mmUp
    1 1 1 upStateEx "udp_14550" ("10.0.0.9", 14550)
    (by decide) (by decide) (by decide) (by decide) (by decide)
  rw [h]
  refine ⟨by decide, by simp [Function.update, upStateEx]⟩

/-- The smallest still-missing sequence number of a partially-downloaded
mission (`none` when no hole remains). -/
def smallestHole (m : List (Option DLItem)) : Option Nat :=
  (List.range m.length).find? (fun i => (m.getD i none).isNone)

/-- Download state for the C8 counterexample: three holes. -/
def dlStateEx : DownloadState := ⟨.downloading, [none, none, none], 0, 1⟩

/-- Mission-manager state for the C8 counterexample. -/
def mmDl : MMState := ⟨fun _ => none, fun s => if s = 1 then some dlStateEx else none⟩

/-- The out-of-order item received first. -/
def dlItemEx : DLItem := ⟨1, 0, 16, 0, 0, 0, [0, 0, 0, 0]⟩

/-- One-hole download state for the completion side of the C8
counterexample (started at t = 10). -/
def dlStateOne : DownloadState := ⟨.downloading, [none], 10, 1⟩

/-- Mission-manager state holding `dlStateOne` for sysid 1. -/
def mmDlOne : MMState := ⟨fun _ => none, fun s => if s = 1 then some dlStateOne else none⟩

/-- A mission item with a non-zero `frame` field (the spec's
canonicalization strips `frame` before hashing). -/
def dlItemFr3 : DLItem := ⟨0, 3, 16, 374125000, -1219980000, 55, [1, 2, 3, 4]⟩

/-- Counterexample to C8 as stated, in two parts.  (a) With holes at
0, 1, 2, receiving `MISSION_ITEM_INT(seq=1)` out of order leaves holes at
0 and 2, and the downloader's next `MISSION_REQUEST_INT` asks for
`seq + 1 = 2` — not the smallest still-missing sequence number, which is 0.
(b) Completing a download publishes the raw stored mission on the
downloaded-mission topic: the published payload is exactly
`{sysid, compid, mission, count, download_duration}` with the item's
`frame` field intact — `_complete_download` neither canonicalizes (the
spec's canonicalization strips `frame`) nor computes or publishes any
hash. -/
theorem handle_mission_item_requests_next_not_smallest :
    ((handle_mission_item cfg250 c6router mmDl 1 1 1 dlItemEx 50).2
      = [Event.inject "udp_14550" ("10.0.0.9", 14550)
          (OutBytes.frame (encode_mission_request_int 1 1 2 250 1))])
    ∧ (((handle_mission_item cfg250 c6router mmDl 1 1 1 dlItemEx 50).1.downloads 1).map
        (fun st => smallestHole st.mission) = some (some 0))
    ∧ ((handle_mission_item cfg250 c6router mmDlOne 1 1 0 dlItemFr3 25).2
      = [Event.publishDownloaded 1 ⟨1, 1, [some dlItemFr3], 1, 15⟩]) := by
  refine ⟨by decide, by decide, ?_⟩
  norm_num [handle_mission_item, mmDlOne, dlStateOne]

/-- C8 amended: receiving `MISSION_ITEM[_INT]` with `seq = k` during
`downloading` fills the hole at index `k`; if holes remain, the downloader's
next `MISSION_REQUEST_INT` asks for `k + 1` when `k + 1 < count` (regardless
of earlier holes) and asks for nothing when `k + 1 ≥ count`; once no holes
remain, the state becomes `completed` and the raw mission list is published
on the downloaded-mission topic in a payload carrying sysid, compid,
mission, count and duration — no canonicalization is applied and no hash is
computed or published. -/
theorem handle_mission_item_fill_and_next (cfg : Cfg) (router : RouterState)
    (mm : MMState) (sysid compid seq : Nat) (itemData : DLItem) (now : Rat)
    (st : DownloadState) (hst : mm.downloads sysid = some st)
    (hph : st.phase = .downloading) (hlt : seq < st.mission.length) :
    (((handle_mission_item cfg router mm sysid compid seq itemData now).1.downloads
        sysid).map (fun st2 => st2.mission)
      = some (st.mission.set seq (some itemData)))
    ∧ ((st.mission.set seq (some itemData)).all (fun it => it.isSome) = true →
        (handle_mission_item cfg router mm sysid compid seq itemData now).2
          = [Event.publishDownloaded sysid
              ⟨sysid, compid, st.mission.set seq (some itemData),
               (st.mission.set seq (some itemData)).length, now - st.startTime⟩]
        ∧ (((handle_mission_item cfg router mm sysid compid seq itemData now).1.downloads
            sysid).map (fun st2 => st2.phase) = some .completed))
    ∧ ((st.mission.set seq (some itemData)).all (fun it => it.isSome) = false →
        (∀ p addr, seq + 1 < st.mission.length →
            sendToDrone router sysid = some (p, addr) →
            (handle_mission_item cfg router mm sysid compid seq itemData now).2
              = [Event.inject p addr (OutBytes.frame
                  (encode_mission_request_int sysid compid (seq + 1)
                    (cfg.gcsSysid.getD 255) (cfg.gcsCompid.getD 1)))])
        ∧ (st.mission.length ≤ seq + 1 →
            (handle_mission_item cfg router mm sysid compid seq itemData now).2 = [])) := by
  unfold handle_mission_item
  rw [hst]
  dsimp only
  rw [if_neg (by rw [hph]; exact fun h => h rfl), if_pos hlt]
  by_cases hall : (st.mission.set seq (some itemData)).all (fun it => it.isSome) = true
  · rw [if_pos hall]
    refine ⟨by simp, fun _ => ⟨rfl, by simp⟩, fun hfalse => ?_⟩
    rw [hall] at hfalse
    exact absurd hfalse (by simp)
  · rw [if_neg hall]
    by_cases hnext : seq + 1 < st.mission.length
    · rw [if_pos hnext]
      refine ⟨?_, fun htrue => absurd htrue hall, fun _ => ⟨?_, fun hge => by omega⟩⟩
      · cases hsd : sendToDrone router sysid with
        | none => simp
        | some pa => simp
      · intro p addr hlt2 hsend
        rw [hsend]
    · rw [if_neg hnext]
      exact ⟨by simp, fun htrue => absurd htrue hall,
        fun _ => ⟨fun p addr hlt2 _ => absurd hlt2 hnext, fun _ => rfl⟩⟩

/-- Witness for the amended C8: receiving `seq = 1` into `[none, none, none]`
sets slot 1, leaves `all`-filled false, and requests `seq + 1 = 2`; and
filling the last hole of a one-item download publishes the raw payload
(mission as stored, count 1, duration `25 - 10`). -/
theorem handle_mission_item_fill_and_next_witness :
    (((handle_mission_item cfg250 c6router mmDl 1 1 1 dlItemEx 50).1.downloads 1).map
        (fun st2 => st2.mission) = some [none, some dlItemEx, none])
    ∧ ((handle_mission_item cfg250 c6router mmDl 1 1 1 dlItemEx 50).2
        = [Event.inject "udp_14550" ("10.0.0.9", 14550)
            (OutBytes.frame (encode_mission_request_int 1 1 2 250 1))])
    ∧ ((handle_mission_item cfg250 c6router mmDlOne 1 1 0 dlItemFr3 25).2
        = [Event.publishDownloaded 1 ⟨1, 1, [some dlItemFr3], 1, 15⟩]) := by
  have h := handle_mission_item_fill_and_next cfg250 c6router mmDl 1 1 1
    dlItemEx 50 dlStateEx (by decide) (by decide) (by decide)
  have h2 := handle_mission_item_fill_and_next cfg250 c6router mmDlOne 1 1 0
    dlItemFr3 25 dlStateOne (by decide) (by decide) (by decide)
  refine ⟨?_, ?_, ?_⟩
  · have h1 := h.1
    simpa using h1
  · have h3 := (h.2.2 (by decide)).1 "udp_14550" ("10.0.0.9", 14550)
      (by decide) (by decide)
    simpa using h3
  · have h4 := (h2.2.1 (by decide)).1
    rw [h4]
    norm_num [dlStateOne]

/-! ### `MissionUploader.upload_mission` (`mission_uploader.py`)

The pymavlink uploader loop: each iteration first checks
`time.time() - start > timeout` (default `timeout=30.0`) and raises a
timeout error if exceeded; otherwise it waits up to 1 s for a message.
An iteration is modelled as one trace event `(t, m)` where `t` is the clock
value at the top of the iteration and `m` the message `recv_match` returned
(`none` = receive timeout).  Item sends are modelled separately
(`handle_mission_request`); here only the loop outcome matters. -/

/-- A message the uploader loop can receive. -/
inductive UpMsg where
  | request (seq : Int)
  | ack
  | unknown
deriving DecidableEq

/-- The possible outcomes of `upload_mission`. -/
inductive UploadOutcome where
  | completed
  | failedTimeout
  | failedInvalidSeq (seq : Int)
  | outOfEvents
deriving DecidableEq

/-- The default `timeout` argument of `upload_mission` (30.0 s). -/
def upload_mission_default_timeout : Rat := 30

/-- The `upload_mission` receive loop over a finite event trace. -/
def upload_mission_run (count : Nat) (start timeout : Rat) :
    List (Rat × Option UpMsg) → UploadOutcome
  | [] => .outOfEvents
  | (t, m) :: rest =>
      if timeout < t - start then .failedTimeout
      else
        match m with
        | none => upload_mission_run count start timeout rest
        | some (.request k) =>
            if k < 0 ∨ (count : Int) ≤ k then .failedInvalidSeq k
            else upload_mission_run count start timeout rest
        | some .ack => .completed
        | some .unknown => upload_mission_run count start timeout rest

/-- C9 amended, uploader side: if no request/ack activity occurs at all and
the clock passes `start + timeout`, `upload_mission` terminates with the
timeout failure (it cannot stay in the loop forever once the clock has
advanced past the deadline). -/
theorem upload_mission_run_timeout (count : Nat) (start timeout : Rat)
    (trace : List (Rat × Option UpMsg))
    (hquiet : ∀ e ∈ trace, e.2 = none)
    (hlate : ∃ e ∈ trace, timeout < e.1 - start) :
    upload_mission_run count start timeout trace = .failedTimeout := by
  induction trace with
  | nil => simp at hlate
  | cons e rest ih =>
      obtain ⟨t, m⟩ := e
      have hm : m = none := hquiet (t, m) (List.mem_cons_self _ _)
      subst hm
      unfold upload_mission_run
      by_cases ht : timeout < t - start
      · rw [if_pos ht]
      · rw [if_neg ht]
        apply ih
        · intro e he
          exact hquiet e (List.mem_cons_of_mem _ he)
        · rcases hlate with ⟨e, he, hte⟩
          rcases List.mem_cons.mp he with rfl | he'
          · exact absurd hte ht
          · exact ⟨e, he', hte⟩

/-- Witness for the amended C9: a quiet trace whose second tick is at
t = 31 > 30 makes the upload fail with a timeout. -/
theorem upload_mission_run_timeout_witness :
    upload_mission_run 2 0 upload_mission_default_timeout
      [(10, none), (31, none)] = .failedTimeout :=
  upload_mission_run_timeout 2 0 upload_mission_default_timeout
    [(10, none), (31, none)] (by decide)
    ⟨(31, none), by decide, by norm_num [upload_mission_default_timeout]⟩

/-- A one-item mission for the C9 counterexample. -/
def mItemEx : MissionItem := ⟨6, 16, 374125000, -1219980000, 55, []⟩

/-- Counterexample to C9 as stated: the MQTT `MissionManager` upload FSM has
**no** timeout.  An upload started at t = 0 (last transition: entering
`sending_items` at t = 0) is still in `sending_items` after arbitrary later
no-progress handler invocations; nothing in `mqtt_adapter.py` compares
elapsed time against 30 s (`start_time` is only used to report durations),
and no handler ever assigns a `failed` state (`UploadPhase` faithfully has
no failure constructor).  So the upload does not terminate in `completed` or
`failed` within 30 s of its last state transition. -/
theorem mission_manager_upload_no_timeout_counterexample :
    (((start_mission_upload cfg250 c6router mmEmpty 1 1 [mItemEx] none 0).1.uploads
        1).map (fun st => st.phase) = some .sendingItems)
    ∧ (((start_mission_upload cfg250 c6router mmEmpty 1 1 [mItemEx] none
          0).1.uploads 1).map (fun st => st.startTime) = some 0)
    ∧ (((handle_mission_request cfg250 c6router
          (start_mission_upload cfg250 c6router mmEmpty 1 1 [mItemEx] none 0).1
          1 1 5).1.uploads 1).map (fun st => st.phase) = some .sendingItems)
    ∧ ((pendingPassOne c6router (fun _ => []) 1).2 = []) := by
  refine ⟨by decide, by decide, by decide, by decide⟩

end Wayfarer
